import Mathlib

/-!
# NameSurfer subdomain registry — shallow embedding

A shallow embedding of the subdomain-to-DNS lifecycle of the NameSurfer
repository: the validators (`lib/validation.js`), the PowerDNS client request
builders (`lib/powerdns-client.js`), and the API route handlers
(`pages/api/subdomains/index.js`, `[id].js`, `check.js`).

JavaScript strings are modelled as Lean `String`s restricted to ASCII content:
`jsTrim` models `String.prototype.trim` over the ASCII whitespace characters,
`strLower` models `toLowerCase` on ASCII, and the `validator` library's
`isIP(·, 4)` / `isFQDN` checks are modelled on ASCII input following the
library's regular expressions. Values that are `undefined`, `null` or
non-strings in JavaScript are modelled by `Option.none`; fallible branches
return explicit result constructors.
-/

namespace NameSurfer

/-- Result of a validator from `lib/validation.js`: `{valid:true, value}` or
`{valid:false, error}`. -/
inductive VResult where
  | valid (value : String)
  | invalid (error : String)
deriving DecidableEq, Repr

/-- Model of `String.prototype.trim` (ASCII whitespace). -/
def jsTrim (s : String) : String :=
  ⟨((s.data.dropWhile Char.isWhitespace).reverse.dropWhile Char.isWhitespace).reverse⟩

/-- Model of `String.prototype.toLowerCase` on ASCII content. -/
def strLower (s : String) : String :=
  ⟨s.data.map Char.toLower⟩

/-- Decides `lo ≤ c ≤ hi` as a Bool, for character-class checks. -/
def charBetween (lo hi c : Char) : Bool :=
  decide (lo ≤ c) && decide (c ≤ hi)

/-- One character of the label character class `[a-z0-9-]`
(`validation.js` line 21). -/
def isLabelChar (c : Char) : Bool :=
  charBetween 'a' 'z' c || charBetween '0' '9' c || c == '-'

/-- Whether the first character is a hyphen (`trimmed.startsWith('-')`). -/
def headIsHyphen (t : String) : Bool := t.data.headD ' ' == '-'

/-- Whether the last character is a hyphen (`trimmed.endsWith('-')`). -/
def lastIsHyphen (t : String) : Bool := t.data.getLastD ' ' == '-'

/-- The reserved-name list of `validation.js` line 31. -/
def reservedNames : List String :=
  ["www", "mail", "ftp", "admin", "root", "api", "ns1", "ns2"]

/-- Model of `validateSubdomainName` from `lib/validation.js` lines 8-37.
`none` models a missing or non-string argument. -/
def validateSubdomainName (subdomain : Option String) : VResult :=
  match subdomain with
  | none => .invalid "Subdomain name is required"
  | some s =>
    if s == "" then .invalid "Subdomain name is required"
    else
      let trimmed := strLower (jsTrim s)
      if trimmed.length < 3 || 63 < trimmed.length then
        .invalid "Subdomain must be between 3 and 63 characters"
      else if !(trimmed.data.all isLabelChar) then
        .invalid "Subdomain can only contain lowercase letters, numbers, and hyphens"
      else if headIsHyphen trimmed || lastIsHyphen trimmed then
        .invalid "Subdomain cannot start or end with a hyphen"
      else if reservedNames.contains trimmed then
        .invalid "This subdomain name is reserved"
      else .valid trimmed

/-- Model of JavaScript `"...".split('.')` on a character list. -/
def splitDot : List Char → List (List Char)
  | [] => [[]]
  | c :: rest =>
    if c == '.' then [] :: splitDot rest
    else
      match splitDot rest with
      | [] => [[c]]
      | h :: t => (c :: h) :: t

/-- One IPv4 segment per the `validator` library's
`25[0-5]|2[0-4][0-9]|1[0-9][0-9]|[1-9][0-9]|[0-9]` regex. -/
def ipSeg (p : List Char) : Bool :=
  match p with
  | [a] => a.isDigit
  | [a, b] => charBetween '1' '9' a && b.isDigit
  | [a, b, c] =>
    (a == '1' && b.isDigit && c.isDigit) ||
    (a == '2' && charBetween '0' '4' b && c.isDigit) ||
    (a == '2' && b == '5' && charBetween '0' '5' c)
  | _ => false

/-- Model of `validator.isIP(s, 4)`: exactly four dot-separated IPv4 segments. -/
def isIPv4 (s : String) : Bool :=
  let parts := splitDot s.data
  parts.length == 4 && parts.all ipSeg

/-- Model of `validateIP` from `lib/validation.js` lines 57-67. -/
def validateIP (ip : Option String) : VResult :=
  match ip with
  | none => .invalid "IP address is required"
  | some s =>
    if s == "" then .invalid "IP address is required"
    else if !(isIPv4 s) then .invalid "Invalid IPv4 address"
    else .valid (jsTrim s)

/-- A character admitted by the `validator.isFQDN` per-part character class
`[a-z_0-9-]` (case-insensitive), restricted to ASCII. -/
def isFQDNPartChar (c : Char) : Bool :=
  c.isAlpha || c.isDigit || c == '-' || c == '_'

/-- One domain-name part check of `validator.isFQDN` with default options:
nonempty, at most 63 chars, admissible characters, no leading/trailing
hyphen, no underscore. -/
def isFQDNPart (p : List Char) : Bool :=
  decide (p.length ≤ 63) && !p.isEmpty && p.all isFQDNPartChar &&
  !(p.headD ' ' == '-') && !(p.getLastD ' ' == '-') && !(p.contains '_')

/-- The `validator.isFQDN` top-level-domain check on ASCII input:
at least two letters, or `xn` followed by at least two of `[a-z0-9-]`
(case-insensitive). -/
def isFQDNTld (t : List Char) : Bool :=
  (decide (2 ≤ t.length) && t.all Char.isAlpha) ||
  (match t.map Char.toLower with
   | 'x' :: 'n' :: rest =>
     decide (2 ≤ rest.length) &&
       rest.all (fun c => charBetween 'a' 'z' c || c.isDigit || c == '-')
   | _ => false)

/-- Model of `validator.isFQDN` with default options on ASCII input: split on dots,
at least two parts, valid TLD, every part valid. -/
def isFQDNChars (l : List Char) : Bool :=
  let parts := splitDot l
  decide (2 ≤ parts.length) && isFQDNTld (parts.getLastD []) && parts.all isFQDNPart

/-- The scheme-stripping step of `validateURL`:
`trimmed.replace(/^https?:\/\//, '')`. -/
def stripScheme (l : List Char) : List Char :=
  if List.isPrefixOf "https://".data l then l.drop 8
  else if List.isPrefixOf "http://".data l then l.drop 7
  else l

/-- The trailing-slash-stripping step of `validateURL`: `.replace(/\/$/, '')`. -/
def stripTrailSlash (l : List Char) : List Char :=
  if l.getLastD ' ' == '/' then l.dropLast else l

/-- Model of `validateURL` from `lib/validation.js` lines 72-85. The scheme prefix and
trailing slash are stripped only for the `isFQDN` check; the returned `value`
is the trimmed input unchanged. -/
def validateURL (url : Option String) : VResult :=
  match url with
  | none => .invalid "URL/domain is required"
  | some u =>
    if u == "" then .invalid "URL/domain is required"
    else
      let trimmed := jsTrim u
      if isFQDNChars (stripTrailSlash (stripScheme trimmed.data)) then
        .valid trimmed
      else .invalid "Invalid domain or URL"

/-- The authenticated caller supplied by `withAuth`
(the Identity Provider's `(uid, email, isAdmin)` triple). -/
structure User where
  uid : String
  email : String
  isAdmin : Bool
deriving DecidableEq, Repr

/-- A persisted Firestore document of the `subdomains` collection, with its
document id. Timestamps are abstract `Nat` instants. -/
structure SubdomainRecord where
  id : String
  subdomainName : String
  userEmail : String
  userId : String
  targetUrl : String
  recordType : String
  status : String
  dnsCreated : Bool
  dnsError : Option String
  createdAt : Nat
  approvedAt : Option Nat
  updatedAt : Option Nat
deriving DecidableEq, Repr

/-- The persisted store: the `subdomains` collection as a list of documents. -/
abbrev DB := List SubdomainRecord

/-- Outcome of an awaited DNS Directory Client call: resolves, or throws an
error whose `.message` is the given string. -/
inductive DnsOutcome where
  | ok
  | err (msg : String)
deriving DecidableEq, Repr

/-- A DNS Directory Client call issued by a handler (the call trace). -/
inductive DnsCall where
  | upsertA (label ip : String)
  | upsertCNAME (label target : String)
  | deleteRRset (label rtype : String)
deriving DecidableEq, Repr

/-- The target-validation dispatch of `handlePost` lines 107-115 (and
`handlePatch` lines 103-108): `A` uses `validateIP`, `CNAME` uses
`validateURL`, any other type has no validator (`none`). -/
def targetValidationFor (recordType : String) (targetUrl : Option String) :
    Option VResult :=
  if recordType == "A" then some (validateIP targetUrl)
  else if recordType == "CNAME" then some (validateURL targetUrl)
  else none

/-- The DNS upsert issued for a record type (lines 138-142 of `index.js`,
lines 122-126 of `[id].js`); only reached when the type is `A` or `CNAME`. -/
def dnsCallFor (recordType label target : String) : DnsCall :=
  if recordType == "A" then .upsertA label target else .upsertCNAME label target

/-- The `dnsCreated` flag resulting from the try/catch around the DNS upsert. -/
def dnsCreatedOf (dns : DnsOutcome) : Bool :=
  match dns with
  | .ok => true
  | .err _ => false

/-- The `dnsError` field resulting from the try/catch around the DNS upsert. -/
def dnsErrorOf (dns : DnsOutcome) : Option String :=
  match dns with
  | .ok => none
  | .err m => some m

/-- The document written by `handlePost` lines 152-163: auto-approved, both
timestamps set to the creation instant. -/
def mkCreatedRec (u : User) (nid label target recordType : String)
    (dns : DnsOutcome) (now : Nat) : SubdomainRecord :=
  { id := nid
    subdomainName := label
    userEmail := u.email
    userId := u.uid
    targetUrl := target
    recordType := recordType
    status := "approved"
    dnsCreated := dnsCreatedOf dns
    dnsError := dnsErrorOf dns
    createdAt := now
    approvedAt := some now
    updatedAt := none }

/-- HTTP-level result of `POST /api/subdomains`. -/
inductive PostResult where
  | created (rec : SubdomainRecord)
  | badRequest (error : String)
  | conflict (error : String)
  | tooMany (error : String)
deriving DecidableEq, Repr

/-- Model of `handlePost` from `pages/api/subdomains/index.js` lines 83-183: rate
limit, validate name, validate target by record type, uniqueness check,
attempted DNS write (outcome `dns`), persist auto-approved document.
Returns the HTTP result, the updated store, and the DNS call trace. -/
def handlePost (db : DB) (u : User) (rateLimitOk : Bool)
    (subdomainName targetUrl : Option String) (recordType : String)
    (dns : DnsOutcome) (nid : String) (now : Nat) :
    PostResult × DB × List DnsCall :=
  if !rateLimitOk then
    (.tooMany "Too many requests. Please try again later.", db, [])
  else
    match validateSubdomainName subdomainName with
    | .invalid e => (.badRequest e, db, [])
    | .valid label =>
      match targetValidationFor recordType targetUrl with
      | none => (.badRequest "Invalid record type. Must be A or CNAME.", db, [])
      | some (.invalid e) => (.badRequest e, db, [])
      | some (.valid target) =>
        if db.any (fun r => r.subdomainName == label) then
          (.conflict "This subdomain is already taken", db, [])
        else
          let newRec := mkCreatedRec u nid label target recordType dns now
          (.created newRec, db ++ [newRec], [dnsCallFor recordType label target])

/-- HTTP-level result of `GET /api/subdomains/[id]`. -/
inductive GetResult where
  | ok (rec : SubdomainRecord)
  | notFound (error : String)
  | forbidden (error : String)
deriving DecidableEq, Repr

/-- Model of `handleGet` from `pages/api/subdomains/[id].js` lines 36-70: fetch by
document id, then the ownership check (admin sees all). -/
def handleGetOne (db : DB) (u : User) (id : String) : GetResult :=
  match db.find? (fun r => r.id == id) with
  | none => .notFound "Subdomain not found"
  | some data =>
    if !u.isAdmin && data.userId != u.uid then .forbidden "Access denied"
    else .ok data

/-- HTTP-level result of `PATCH /api/subdomains/[id]`. -/
inductive PatchResult where
  | ok (updated : SubdomainRecord)
  | notFound (error : String)
  | forbidden (error : String)
  | badRequest (error : String)
  | serverError (error : String)
deriving DecidableEq, Repr

/-- The merged document written by `handlePatch` lines 135-142: only
`targetUrl`, `dnsCreated`, `dnsError`, `updatedAt` change. -/
def patchedRec (cur : SubdomainRecord) (v : String) (dns : DnsOutcome)
    (now : Nat) : SubdomainRecord :=
  { cur with
    targetUrl := v
    dnsCreated := dnsCreatedOf dns
    dnsError := dnsErrorOf dns
    updatedAt := some now }

/-- Model of `handlePatch` from `pages/api/subdomains/[id].js` lines 73-165: fetch,
ownership check, `targetUrl` presence check, validation against the stored
record's `recordType`, attempted DNS upsert (outcome `dns`), merge-update.
A record type outside {A, CNAME} leaves `targetValidation` undefined in the
source; reading `.valid` then throws and the catch returns a 500, modelled
by `serverError`. -/
def handlePatch (db : DB) (u : User) (id : String) (targetUrl : Option String)
    (dns : DnsOutcome) (now : Nat) : PatchResult × DB × List DnsCall :=
  match db.find? (fun r => r.id == id) with
  | none => (.notFound "Subdomain not found", db, [])
  | some cur =>
    if !u.isAdmin && cur.userId != u.uid then (.forbidden "Access denied", db, [])
    else
      match targetUrl with
      | none => (.badRequest "targetUrl is required", db, [])
      | some t =>
        if t == "" then (.badRequest "targetUrl is required", db, [])
        else
          match targetValidationFor cur.recordType (some t) with
          | none => (.serverError "Failed to update subdomain", db, [])
          | some (.invalid e) => (.badRequest e, db, [])
          | some (.valid v) =>
            let updated := patchedRec cur v dns now
            (.ok updated,
             db.map (fun r => if r.id == id then updated else r),
             [dnsCallFor cur.recordType cur.subdomainName v])

/-- HTTP-level result of `DELETE /api/subdomains/[id]`. -/
inductive DeleteResult where
  | ok
  | notFound (error : String)
  | forbidden (error : String)
deriving DecidableEq, Repr

/-- Model of `handleDelete` from `pages/api/subdomains/[id].js` lines 168-216: fetch,
ownership check, best-effort DNS delete only when `dnsCreated` is set (its
outcome `dns` is swallowed by the inner catch), unconditional Firestore
delete, success response. -/
def handleDelete (db : DB) (u : User) (id : String) (_dns : DnsOutcome) :
    DeleteResult × DB × List DnsCall :=
  match db.find? (fun r => r.id == id) with
  | none => (.notFound "Subdomain not found", db, [])
  | some data =>
    if !u.isAdmin && data.userId != u.uid then (.forbidden "Access denied", db, [])
    else
      (.ok,
       db.filter (fun r => !(r.id == id)),
       if data.dnsCreated then [.deleteRRset data.subdomainName data.recordType]
       else [])

/-- HTTP-level result of `GET /api/subdomains/check`. -/
inductive CheckResult where
  | ok (available : Bool) (reason : Option String)
  | badRequest (error : String)
deriving DecidableEq, Repr

/-- The availability handler from `pages/api/subdomains/check.js` lines 6-52.
The second component records whether a Firestore lookup was performed. -/
def checkHandler (db : DB) (name : Option String) : CheckResult × Bool :=
  match name with
  | none => (.badRequest "Subdomain name is required", false)
  | some n =>
    if n == "" then (.badRequest "Subdomain name is required", false)
    else
      match validateSubdomainName (some n) with
      | .invalid e => (.ok false (some e), false)
      | .valid v =>
        let taken := db.any (fun r => r.subdomainName == v)
        (.ok (!taken) (if taken then some "This subdomain is already taken" else none),
         true)

/-- One record of a PowerDNS rrset body (`{content, disabled}`). -/
structure RRRecord where
  content : String
  disabled : Bool
deriving DecidableEq, Repr

/-- One rrset of a PowerDNS zone-PATCH body. `ttl` is absent (`none`) on
DELETE requests. -/
structure RRSet where
  name : String
  rtype : String
  ttl : Option Nat
  changetype : String
  records : List RRRecord
deriving DecidableEq, Repr

/-- The rrset sent by `createARecord` (`lib/powerdns-client.js` lines 15-55):
REPLACE of `{label.zone, A, ttl 3600}` with the target IP as content. -/
def aRecordRRset (zone label targetIP : String) : RRSet :=
  { name := label ++ "." ++ zone
    rtype := "A"
    ttl := some 3600
    changetype := "REPLACE"
    records := [{ content := targetIP, disabled := false }] }

/-- The rrset sent by `createCNAMERecord` (`lib/powerdns-client.js` lines
63-104): REPLACE of `{label.zone, CNAME, ttl 3600}`; the target gets a
trailing dot appended when absent. -/
def cnameRRset (zone label target : String) : RRSet :=
  { name := label ++ "." ++ zone
    rtype := "CNAME"
    ttl := some 3600
    changetype := "REPLACE"
    records := [{ content := if target.data.getLastD ' ' == '.' then target
                  else target ++ "."
                  disabled := false }] }

/-- The rrset sent by `deleteRecord` (`lib/powerdns-client.js` lines 112-147):
DELETE of `{label.zone, recordType}` with no ttl or records. -/
def deleteRRsetReq (zone label recordType : String) : RRSet :=
  { name := label ++ "." ++ zone
    rtype := recordType
    ttl := none
    changetype := "DELETE"
    records := [] }

/-- One rrset held by the authoritative server, keyed by name and type. -/
structure ZoneEntry where
  name : String
  rtype : String
  ttl : Nat
  records : List RRRecord
deriving DecidableEq, Repr

/-- The authoritative server's zone contents. -/
abbrev ZoneState := List ZoneEntry

/-- Modelled from the spec: the DNS Directory's zone-update semantics
(§4.3, §6), which live in the external authoritative server rather than in
this repository. `changetype: REPLACE` atomically substitutes the rrset for
the given name and type; `changetype: DELETE` removes it (deleting a
nonexistent rrset is tolerated as success). -/
def applyRRset (z : ZoneState) (r : RRSet) : ZoneState :=
  if r.changetype == "REPLACE" then
    { name := r.name, rtype := r.rtype, ttl := r.ttl.getD 0, records := r.records } ::
      z.filter (fun e => !(e.name == r.name && e.rtype == r.rtype))
  else if r.changetype == "DELETE" then
    z.filter (fun e => !(e.name == r.name && e.rtype == r.rtype))
  else z

/-- The label predicate of spec §4.1 / §8: matches `[a-z0-9-]{3,63}`, no
leading or trailing hyphen, not reserved. Stated over the already
trimmed-and-lowercased form. -/
def goodLabel (t : String) : Bool :=
  !(decide (t.length < 3) || decide (63 < t.length)) &&
  t.data.all isLabelChar &&
  !(headIsHyphen t || lastIsHyphen t) &&
  !(reservedNames.contains t)

end NameSurfer

namespace NameSurfer

/-- C5: `validateLabel` is total (it is a Lean function, so it always returns
a result); for every string whose trimmed, lowercased form satisfies the
label rules it returns valid with that normalized value; for every other
string it returns invalid with a reason, and a missing/non-string input is
invalid with a reason as well. -/
theorem validateLabel_total_spec (s : String) :
    (goodLabel (strLower (jsTrim s)) = true →
      validateSubdomainName (some s) = .valid (strLower (jsTrim s))) ∧
    (goodLabel (strLower (jsTrim s)) = false →
      ∃ e, validateSubdomainName (some s) = .invalid e) ∧
    validateSubdomainName none = .invalid "Subdomain name is required" := by
  refine ⟨?_, ?_, rfl⟩
  · intro h
    have hs : s ≠ "" := by
      intro hs
      subst hs
      exact absurd h (by decide)
    have hs' : (s == "") = false := beq_eq_false_iff_ne.mpr hs
    simp only [goodLabel, Bool.and_eq_true] at h
    obtain ⟨⟨⟨h1, h2⟩, h3⟩, h4⟩ := h
    simp only [Bool.not_eq_true'] at h1 h3 h4
    simp [validateSubdomainName, hs', h1, h2, h3, h4]
    simpa using h4
  · intro h
    by_cases hs : s = ""
    · subst hs
      exact ⟨_, rfl⟩
    · have hs' : (s == "") = false := beq_eq_false_iff_ne.mpr hs
      simp only [validateSubdomainName, hs', Bool.false_eq_true, if_false]
      split
      · exact ⟨_, rfl⟩
      · split
        · exact ⟨_, rfl⟩
        · split
          · exact ⟨_, rfl⟩
          · split
            · exact ⟨_, rfl⟩
            · exfalso
              simp_all [goodLabel]

/-- Witness for C5 at a concrete input with surrounding whitespace and
uppercase characters. -/
theorem validateLabel_total_spec_witness :
    goodLabel (strLower (jsTrim " My-Site ")) = true ∧
    validateSubdomainName (some " My-Site ") = .valid "my-site" :=
  ⟨by decide, by
    have h := (validateLabel_total_spec " My-Site ").1 (by decide)
    simpa using h⟩

/-- If the label and target validate and the label is not taken, `handlePost`
persists the auto-approved document, returns it with a 201, and issues
exactly one DNS upsert. -/
lemma handlePost_created_eq (db : DB) (u : User) (name target : Option String)
    (rtype : String) (dns : DnsOutcome) (nid : String) (now : Nat) (l t : String)
    (hname : validateSubdomainName name = .valid l)
    (htv : targetValidationFor rtype target = some (.valid t))
    (hfree : db.any (fun r => r.subdomainName == l) = false) :
    handlePost db u true name target rtype dns nid now =
      (.created (mkCreatedRec u nid l t rtype dns now),
       db ++ [mkCreatedRec u nid l t rtype dns now],
       [dnsCallFor rtype l t]) := by
  simp [handlePost, hname, htv, hfree]

/-- If the label and target validate but the label is taken, `handlePost`
returns 409, writes nothing, and issues no DNS call. -/
lemma handlePost_conflict_eq (db : DB) (u : User) (name target : Option String)
    (rtype : String) (dns : DnsOutcome) (nid : String) (now : Nat) (l t : String)
    (hname : validateSubdomainName name = .valid l)
    (htv : targetValidationFor rtype target = some (.valid t))
    (htaken : db.any (fun r => r.subdomainName == l) = true) :
    handlePost db u true name target rtype dns nid now =
      (.conflict "This subdomain is already taken", db, []) := by
  simp [handlePost, hname, htv, htaken]

/-- C1: in auto-approval mode, for every create call whose label and target
pass validation and whose label is not taken, a DNS Directory Client throw
during the upsert still persists the record with `status=approved`,
`dnsCreated=false`, `dnsError` = the thrown message, and returns it as a
success — the DNS failure is not propagated. -/
theorem create_dns_failure_still_succeeds
    (db : DB) (u : User) (name target : Option String) (rtype : String)
    (m nid : String) (now : Nat) (l t : String)
    (hname : validateSubdomainName name = .valid l)
    (htv : targetValidationFor rtype target = some (.valid t))
    (hfree : db.any (fun r => r.subdomainName == l) = false) :
    handlePost db u true name target rtype (.err m) nid now =
      (.created (mkCreatedRec u nid l t rtype (.err m) now),
       db ++ [mkCreatedRec u nid l t rtype (.err m) now],
       [dnsCallFor rtype l t]) ∧
    (mkCreatedRec u nid l t rtype (.err m) now).status = "approved" ∧
    (mkCreatedRec u nid l t rtype (.err m) now).dnsCreated = false ∧
    (mkCreatedRec u nid l t rtype (.err m) now).dnsError = some m :=
  ⟨handlePost_created_eq db u name target rtype (.err m) nid now l t hname htv hfree,
   rfl, rfl, rfl⟩

/-- Witness for C1: a concrete A-record create with a throwing DNS client. -/
theorem create_dns_failure_still_succeeds_witness :
    handlePost [] ⟨"owner1", "owner1@example.com", false⟩ true (some "myhost")
        (some "10.0.0.5") "A" (.err "PowerDNS API error (500): boom") "doc1" 7 =
      (.created (mkCreatedRec ⟨"owner1", "owner1@example.com", false⟩ "doc1"
          "myhost" "10.0.0.5" "A" (.err "PowerDNS API error (500): boom") 7),
       [mkCreatedRec ⟨"owner1", "owner1@example.com", false⟩ "doc1"
          "myhost" "10.0.0.5" "A" (.err "PowerDNS API error (500): boom") 7],
       [dnsCallFor "A" "myhost" "10.0.0.5"]) ∧
    (mkCreatedRec ⟨"owner1", "owner1@example.com", false⟩ "doc1"
        "myhost" "10.0.0.5" "A" (.err "PowerDNS API error (500): boom") 7).status
      = "approved" ∧
    (mkCreatedRec ⟨"owner1", "owner1@example.com", false⟩ "doc1"
        "myhost" "10.0.0.5" "A" (.err "PowerDNS API error (500): boom") 7).dnsCreated
      = false ∧
    (mkCreatedRec ⟨"owner1", "owner1@example.com", false⟩ "doc1"
        "myhost" "10.0.0.5" "A" (.err "PowerDNS API error (500): boom") 7).dnsError
      = some "PowerDNS API error (500): boom" := by
  have h := create_dns_failure_still_succeeds [] ⟨"owner1", "owner1@example.com", false⟩
    (some "myhost") (some "10.0.0.5") "A" "PowerDNS API error (500): boom" "doc1" 7
    "myhost" "10.0.0.5" (by decide) (by decide) (by decide)
  simpa using h

/-- C2: a second create with the same normalized label, issued while the
first call's record is still stored, fails 409, persists nothing, issues no
DNS write, and leaves the store (hence the first record and its target)
unchanged; once the owning record has been deleted the label can be claimed
again. -/
theorem create_label_unique
    (db : DB) (u2 : User) (n2 t2 : Option String) (rt2 : String)
    (d2 : DnsOutcome) (nid2 : String) (now2 : Nat) (l t : String)
    (hname : validateSubdomainName n2 = .valid l)
    (htv : targetValidationFor rt2 t2 = some (.valid t)) :
    (∀ (u1 : User) (n1 t1 : Option String) (rt1 : String) (d1 : DnsOutcome)
        (nid1 : String) (now1 : Nat) (t1v : String),
      validateSubdomainName n1 = .valid l →
      targetValidationFor rt1 t1 = some (.valid t1v) →
      db.any (fun r => r.subdomainName == l) = false →
      handlePost ((handlePost db u1 true n1 t1 rt1 d1 nid1 now1).2.1)
          u2 true n2 t2 rt2 d2 nid2 now2 =
        (.conflict "This subdomain is already taken",
         (handlePost db u1 true n1 t1 rt1 d1 nid1 now1).2.1, [])) ∧
    (∀ (u : User) (rid : String) (d : DnsOutcome) (rec0 : SubdomainRecord),
      db.find? (fun r => r.id == rid) = some rec0 →
      (u.isAdmin = true ∨ rec0.userId = u.uid) →
      (∀ r ∈ db, r.subdomainName = l → r.id = rid) →
      ((handleDelete db u rid d).2.1).any (fun r => r.subdomainName == l) = false ∧
      ∀ (dns2 : DnsOutcome),
        (handlePost ((handleDelete db u rid d).2.1)
            u2 true n2 t2 rt2 dns2 nid2 now2).1 =
          .created (mkCreatedRec u2 nid2 l t rt2 dns2 now2)) := by
  constructor
  · intro u1 n1 t1 rt1 d1 nid1 now1 t1v hn1 ht1 hfree
    have h1 := handlePost_created_eq db u1 n1 t1 rt1 d1 nid1 now1 l t1v hn1 ht1 hfree
    rw [h1]
    have htaken : (db ++ [mkCreatedRec u1 nid1 l t1v rt1 d1 now1]).any
        (fun r => r.subdomainName == l) = true := by
      simp [List.any_append, mkCreatedRec]
    exact handlePost_conflict_eq _ u2 n2 t2 rt2 d2 nid2 now2 l t hname htv htaken
  · intro u rid d rec0 hfind hauth honly
    have hcond : (!u.isAdmin && rec0.userId != u.uid) = false := by
      rcases hauth with ha | ha
      · simp [ha]
      · simp [ha]
    have hdb' : (handleDelete db u rid d).2.1 =
        db.filter (fun r => !(r.id == rid)) := by
      simp [handleDelete, hfind, hcond]
    have hfree : (db.filter (fun r => !(r.id == rid))).any
        (fun r => r.subdomainName == l) = false := by
      rw [List.any_eq_false]
      intro r hr
      have hmem := List.mem_filter.mp hr
      intro hlab
      have hid : r.id = rid := honly r hmem.1 (by simpa using hlab)
      have := hmem.2
      simp [hid] at this
    refine ⟨by rw [hdb']; exact hfree, ?_⟩
    intro dns2
    rw [hdb']
    rw [handlePost_created_eq (db.filter (fun r => !(r.id == rid)))
      u2 n2 t2 rt2 dns2 nid2 now2 l t hname htv hfree]

/-- Witness for C2: owner1 claims `alice`, owner2's claim of `alice` fails
409 and changes nothing; after owner1 deletes the record the label is free
and a new create succeeds. -/
theorem create_label_unique_witness :
    (handlePost ((handlePost [] ⟨"owner1", "o1@example.com", false⟩ true
          (some "alice") (some "10.0.0.5") "A" .ok "doc1" 0).2.1)
        ⟨"owner2", "o2@example.com", false⟩ true
        (some "alice") (some "10.0.0.9") "A" .ok "doc2" 1 =
      (.conflict "This subdomain is already taken",
       (handlePost [] ⟨"owner1", "o1@example.com", false⟩ true
          (some "alice") (some "10.0.0.5") "A" .ok "doc1" 0).2.1, [])) ∧
    (((handleDelete [mkCreatedRec ⟨"owner1", "o1@example.com", false⟩ "doc1"
          "alice" "10.0.0.5" "A" .ok 0]
        ⟨"owner1", "o1@example.com", false⟩ "doc1" .ok).2.1).any
       (fun r => r.subdomainName == "alice") = false ∧
     (handlePost ((handleDelete [mkCreatedRec ⟨"owner1", "o1@example.com", false⟩
            "doc1" "alice" "10.0.0.5" "A" .ok 0]
          ⟨"owner1", "o1@example.com", false⟩ "doc1" .ok).2.1)
        ⟨"owner2", "o2@example.com", false⟩ true
        (some "alice") (some "10.0.0.9") "A" .ok "doc2" 1).1 =
       .created (mkCreatedRec ⟨"owner2", "o2@example.com", false⟩ "doc2"
          "alice" "10.0.0.9" "A" .ok 1)) := by
  constructor
  · exact (create_label_unique [] ⟨"owner2", "o2@example.com", false⟩
      (some "alice") (some "10.0.0.9") "A" .ok "doc2" 1 "alice" "10.0.0.9"
      (by decide) (by decide)).1
      ⟨"owner1", "o1@example.com", false⟩ (some "alice") (some "10.0.0.5") "A"
      .ok "doc1" 0 "10.0.0.5" (by decide) (by decide) (by decide)
  · have h := (create_label_unique
      [mkCreatedRec ⟨"owner1", "o1@example.com", false⟩ "doc1"
        "alice" "10.0.0.5" "A" .ok 0]
      ⟨"owner2", "o2@example.com", false⟩
      (some "alice") (some "10.0.0.9") "A" .ok "doc2" 1 "alice" "10.0.0.9"
      (by decide) (by decide)).2
      ⟨"owner1", "o1@example.com", false⟩ "doc1" .ok
      (mkCreatedRec ⟨"owner1", "o1@example.com", false⟩ "doc1"
        "alice" "10.0.0.5" "A" .ok 0)
      (by decide) (Or.inr (by decide)) (by decide)
    exact ⟨h.1, h.2 .ok⟩

/-- C3: for every stored record the actor may mutate, delete removes the
persisted record and reports success whatever the DNS outcome; the DNS
delete is attempted exactly when `dnsCreated=true`, and a throwing
`deleteRecordSet` neither blocks the removal nor surfaces as a failure. -/
theorem delete_removes_record_despite_dns
    (db : DB) (u : User) (id : String) (d : DnsOutcome) (rec0 : SubdomainRecord)
    (hfind : db.find? (fun r => r.id == id) = some rec0)
    (hauth : u.isAdmin = true ∨ rec0.userId = u.uid) :
    handleDelete db u id d =
      (.ok, db.filter (fun r => !(r.id == id)),
       if rec0.dnsCreated then [.deleteRRset rec0.subdomainName rec0.recordType]
       else []) := by
  have hcond : (!u.isAdmin && rec0.userId != u.uid) = false := by
    rcases hauth with ha | ha <;> simp [ha]
  simp [handleDelete, hfind, hcond]

/-- Witness for C3: the owner deletes a record with `dnsCreated=true` while
the DNS client throws; the record is removed and the result is success. -/
theorem delete_removes_record_despite_dns_witness :
    handleDelete [mkCreatedRec ⟨"owner1", "o1@example.com", false⟩ "doc1"
        "alice" "10.0.0.5" "A" .ok 0]
      ⟨"owner1", "o1@example.com", false⟩ "doc1" (.err "PowerDNS down") =
      (.ok, [], [.deleteRRset "alice" "A"]) := by
  have h := delete_removes_record_despite_dns
    [mkCreatedRec ⟨"owner1", "o1@example.com", false⟩ "doc1"
      "alice" "10.0.0.5" "A" .ok 0]
    ⟨"owner1", "o1@example.com", false⟩ "doc1" (.err "PowerDNS down")
    (mkCreatedRec ⟨"owner1", "o1@example.com", false⟩ "doc1"
      "alice" "10.0.0.5" "A" .ok 0)
    (by decide) (Or.inr (by decide))
  simpa using h

/-- C6: for an existing record of any status and an authorized actor with a
target valid for the record's stored `recordType`, updateTarget succeeds
whatever the DNS outcome, and changes only `targetUrl`, `dnsCreated`,
`dnsError`, `updatedAt`; id, label, owner, recordType, status, `createdAt`
and `approvedAt` are untouched. -/
theorem updateTarget_succeeds_and_frames
    (db : DB) (u : User) (id t : String) (d : DnsOutcome) (now : Nat)
    (cur : SubdomainRecord) (v : String)
    (hfind : db.find? (fun r => r.id == id) = some cur)
    (hauth : u.isAdmin = true ∨ cur.userId = u.uid)
    (ht : (t == "") = false)
    (htv : targetValidationFor cur.recordType (some t) = some (.valid v)) :
    handlePatch db u id (some t) d now =
      (.ok (patchedRec cur v d now),
       db.map (fun r => if r.id == id then patchedRec cur v d now else r),
       [dnsCallFor cur.recordType cur.subdomainName v]) ∧
    (patchedRec cur v d now).id = cur.id ∧
    (patchedRec cur v d now).subdomainName = cur.subdomainName ∧
    (patchedRec cur v d now).userId = cur.userId ∧
    (patchedRec cur v d now).recordType = cur.recordType ∧
    (patchedRec cur v d now).status = cur.status ∧
    (patchedRec cur v d now).createdAt = cur.createdAt ∧
    (patchedRec cur v d now).approvedAt = cur.approvedAt ∧
    (patchedRec cur v d now).targetUrl = v ∧
    (patchedRec cur v d now).updatedAt = some now := by
  have hcond : (!u.isAdmin && cur.userId != u.uid) = false := by
    rcases hauth with ha | ha <;> simp [ha]
  refine ⟨?_, rfl, rfl, rfl, rfl, rfl, rfl, rfl, rfl, rfl⟩
  simp [handlePatch, hfind, hcond, ht, htv]

/-- A stored pending record owned by owner1, used by the C6 witness. -/
def pendingBob : SubdomainRecord :=
  { id := "doc9", subdomainName := "bob", userEmail := "o1@example.com",
    userId := "owner1", targetUrl := "10.0.0.5", recordType := "A",
    status := "pending", dnsCreated := true, dnsError := none,
    createdAt := 3, approvedAt := none, updatedAt := none }

/-- Witness for C6: updating the target of a pending record while the DNS
client throws still returns the updated record, with only the four mutable
fields changed. -/
theorem updateTarget_succeeds_and_frames_witness :
    handlePatch [pendingBob] ⟨"owner1", "o1@example.com", false⟩ "doc9"
        (some "10.0.0.9") (.err "PowerDNS down") 8 =
      (.ok (patchedRec pendingBob "10.0.0.9" (.err "PowerDNS down") 8),
       [patchedRec pendingBob "10.0.0.9" (.err "PowerDNS down") 8],
       [.upsertA "bob" "10.0.0.9"]) ∧
    (patchedRec pendingBob "10.0.0.9" (.err "PowerDNS down") 8).status = "pending" ∧
    (patchedRec pendingBob "10.0.0.9" (.err "PowerDNS down") 8).targetUrl = "10.0.0.9" ∧
    (patchedRec pendingBob "10.0.0.9" (.err "PowerDNS down") 8).dnsError =
      some "PowerDNS down" := by
  have h := updateTarget_succeeds_and_frames [pendingBob]
    ⟨"owner1", "o1@example.com", false⟩ "doc9" "10.0.0.9"
    (.err "PowerDNS down") 8 pendingBob "10.0.0.9"
    (by decide) (Or.inr (by decide)) (by decide) (by decide)
  refine ⟨?_, rfl, rfl, rfl⟩
  have h1 := h.1
  simpa [dnsCallFor, pendingBob] using h1

/-- C7: on an existing record, get, updateTarget and delete invoked by a
non-admin actor who is not the owner all fail with Access denied and leave
the store unchanged; invoked by an admin they pass the ownership gate
regardless of owner. -/
theorem access_policy_enforced
    (db : DB) (u : User) (id : String) (rec0 : SubdomainRecord)
    (t : Option String) (d : DnsOutcome) (now : Nat)
    (hfind : db.find? (fun r => r.id == id) = some rec0) :
    (u.isAdmin = false → rec0.userId ≠ u.uid →
      handleGetOne db u id = .forbidden "Access denied" ∧
      handlePatch db u id t d now = (.forbidden "Access denied", db, []) ∧
      handleDelete db u id d = (.forbidden "Access denied", db, [])) ∧
    (u.isAdmin = true →
      handleGetOne db u id = .ok rec0 ∧
      (∀ e, (handlePatch db u id t d now).1 ≠ .forbidden e) ∧
      handleDelete db u id d =
        (.ok, db.filter (fun r => !(r.id == id)),
         if rec0.dnsCreated then [.deleteRRset rec0.subdomainName rec0.recordType]
         else [])) := by
  constructor
  · intro ha hne
    have hcond : (!u.isAdmin && rec0.userId != u.uid) = true := by
      simp [ha, hne]
    exact ⟨by simp [handleGetOne, hfind, hcond],
           by simp [handlePatch, hfind, hcond],
           by simp [handleDelete, hfind, hcond]⟩
  · intro ha
    have hcond : (!u.isAdmin && rec0.userId != u.uid) = false := by simp [ha]
    refine ⟨by simp [handleGetOne, hfind, hcond], ?_, ?_⟩
    · intro e
      simp only [handlePatch, hfind, hcond, Bool.false_eq_true, if_false]
      cases t with
      | none => simp
      | some t' =>
        by_cases ht : (t' == "") = true
        · simp [ht]
        · simp only [ht, Bool.false_eq_true, if_false]
          cases htv : targetValidationFor rec0.recordType (some t') with
          | none => simp
          | some vr => cases vr <;> simp
    · simp [handleDelete, hfind, hcond]

/-- Witness for C7: owner2 (non-admin) is denied all three operations on
owner1's record; an admin gets the record, is not denied the update, and
deletes successfully. -/
theorem access_policy_enforced_witness :
    (handleGetOne [mkCreatedRec ⟨"owner1", "o1@example.com", false⟩ "doc1"
          "alice" "10.0.0.5" "A" .ok 0]
        ⟨"owner2", "o2@example.com", false⟩ "doc1" = .forbidden "Access denied" ∧
      handlePatch [mkCreatedRec ⟨"owner1", "o1@example.com", false⟩ "doc1"
          "alice" "10.0.0.5" "A" .ok 0]
        ⟨"owner2", "o2@example.com", false⟩ "doc1" (some "10.0.0.9") .ok 5 =
        (.forbidden "Access denied",
         [mkCreatedRec ⟨"owner1", "o1@example.com", false⟩ "doc1"
            "alice" "10.0.0.5" "A" .ok 0], []) ∧
      handleDelete [mkCreatedRec ⟨"owner1", "o1@example.com", false⟩ "doc1"
          "alice" "10.0.0.5" "A" .ok 0]
        ⟨"owner2", "o2@example.com", false⟩ "doc1" .ok =
        (.forbidden "Access denied",
         [mkCreatedRec ⟨"owner1", "o1@example.com", false⟩ "doc1"
            "alice" "10.0.0.5" "A" .ok 0], [])) ∧
    (handleGetOne [mkCreatedRec ⟨"owner1", "o1@example.com", false⟩ "doc1"
          "alice" "10.0.0.5" "A" .ok 0]
        ⟨"root0", "admin@example.com", true⟩ "doc1" =
        .ok (mkCreatedRec ⟨"owner1", "o1@example.com", false⟩ "doc1"
          "alice" "10.0.0.5" "A" .ok 0) ∧
      (handlePatch [mkCreatedRec ⟨"owner1", "o1@example.com", false⟩ "doc1"
          "alice" "10.0.0.5" "A" .ok 0]
        ⟨"root0", "admin@example.com", true⟩ "doc1" (some "10.0.0.9") .ok 5).1 ≠
        .forbidden "Access denied" ∧
      handleDelete [mkCreatedRec ⟨"owner1", "o1@example.com", false⟩ "doc1"
          "alice" "10.0.0.5" "A" .ok 0]
        ⟨"root0", "admin@example.com", true⟩ "doc1" .ok =
        (.ok, [], [.deleteRRset "alice" "A"])) := by
  constructor
  · exact (access_policy_enforced
      [mkCreatedRec ⟨"owner1", "o1@example.com", false⟩ "doc1"
        "alice" "10.0.0.5" "A" .ok 0]
      ⟨"owner2", "o2@example.com", false⟩ "doc1"
      (mkCreatedRec ⟨"owner1", "o1@example.com", false⟩ "doc1"
        "alice" "10.0.0.5" "A" .ok 0)
      (some "10.0.0.9") .ok 5 (by decide)).1 rfl (by decide)
  · have h := (access_policy_enforced
      [mkCreatedRec ⟨"owner1", "o1@example.com", false⟩ "doc1"
        "alice" "10.0.0.5" "A" .ok 0]
      ⟨"root0", "admin@example.com", true⟩ "doc1"
      (mkCreatedRec ⟨"owner1", "o1@example.com", false⟩ "doc1"
        "alice" "10.0.0.5" "A" .ok 0)
      (some "10.0.0.9") .ok 5 (by decide)).2 rfl
    refine ⟨h.1, h.2.1 "Access denied", ?_⟩
    have h3 := h.2.2
    simpa using h3

/-- Counterexample for C4: creating a CNAME for `https://example.com/`
persists `targetUrl = "https://example.com/"` — the scheme prefix and the
trailing slash are NOT stripped from the stored value — and the DNS request
content becomes `https://example.com/.`, not `example.com.`. -/
theorem cname_scheme_kept_counterexample :
    validateURL (some "https://example.com/") = .valid "https://example.com/" ∧
    (handlePost [] ⟨"owner1", "o1@example.com", false⟩ true (some "myblog")
        (some "https://example.com/") "CNAME" .ok "doc1" 0).2.1 =
      [mkCreatedRec ⟨"owner1", "o1@example.com", false⟩ "doc1" "myblog"
        "https://example.com/" "CNAME" .ok 0] ∧
    (mkCreatedRec ⟨"owner1", "o1@example.com", false⟩ "doc1" "myblog"
        "https://example.com/" "CNAME" .ok 0).targetUrl ≠ "example.com" ∧
    (cnameRRset "ns.example" "myblog" "https://example.com/").records =
      [{ content := "https://example.com/.", disabled := false }] := by
  refine ⟨by decide, ?_, by decide, by decide⟩
  have h := handlePost_created_eq [] ⟨"owner1", "o1@example.com", false⟩
    (some "myblog") (some "https://example.com/") "CNAME" .ok "doc1" 0
    "myblog" "https://example.com/" (by decide) (by decide) (by decide)
  rw [h]
  simp

/-- C4 (amended): for every CNAME target carrying an optional scheme prefix
and/or trailing slash around a valid FQDN, validation accepts it, but the
stripping applies only to the FQDN check: the accepted (and hence persisted)
value is the trimmed input with prefix and slash intact, and the DNS record
content is that same value with the wire-format trailing dot appended when
absent. -/
theorem cname_target_validation_amended (u zone label : String)
    (hu : (u == "") = false)
    (hfqdn : isFQDNChars (stripTrailSlash (stripScheme (jsTrim u).data)) = true) :
    validateURL (some u) = .valid (jsTrim u) ∧
    (cnameRRset zone label (jsTrim u)).records =
      [{ content := if (jsTrim u).data.getLastD ' ' == '.' then jsTrim u
         else jsTrim u ++ "."
         disabled := false }] := by
  exact ⟨by simp [validateURL, hu, hfqdn], rfl⟩

/-- Witness for the amended C4 at `https://example.com/`. -/
theorem cname_target_validation_amended_witness :
    validateURL (some "https://example.com/") = .valid (jsTrim "https://example.com/") ∧
    (cnameRRset "ns.example" "myblog" (jsTrim "https://example.com/")).records =
      [{ content := if (jsTrim "https://example.com/").data.getLastD ' ' == '.' then
            jsTrim "https://example.com/" else jsTrim "https://example.com/" ++ "."
         disabled := false }] :=
  cname_target_validation_amended "https://example.com/" "ns.example" "myblog"
    (by decide) (by decide)

/-- Counterexample for C8: the empty label fails `validateLabel` with reason
`Subdomain name is required`, but the availability handler answers it with a
400 error instead of `available=false` with that reason. -/
theorem checkAvailability_empty_label_counterexample :
    validateSubdomainName (some "") = .invalid "Subdomain name is required" ∧
    (checkHandler [] (some "")).1 = .badRequest "Subdomain name is required" ∧
    (checkHandler [] (some "")).1 ≠ .ok false (some "Subdomain name is required") := by
  refine ⟨rfl, rfl, by decide⟩

/-- C8 (amended): for every nonempty label failing `validateLabel` the
availability handler returns `available=false` with the validator's reason
and performs no registry lookup; for every valid label it performs the
lookup and returns `available=true` exactly when no stored record carries
the normalized label (records are removed from the store on delete, so a
deleted label reads as available again). -/
theorem checkAvailability_spec (db : DB) (n : String)
    (hn : (n == "") = false) :
    (∀ e, validateSubdomainName (some n) = .invalid e →
      checkHandler db (some n) = (.ok false (some e), false)) ∧
    (∀ v, validateSubdomainName (some n) = .valid v →
      checkHandler db (some n) =
        (.ok (!(db.any (fun r => r.subdomainName == v)))
          (if db.any (fun r => r.subdomainName == v) then
            some "This subdomain is already taken" else none),
         true)) := by
  constructor
  · intro e he
    simp [checkHandler, hn, he]
  · intro v hv
    simp [checkHandler, hn, hv]

/-- Witness for the amended C8: an invalid label is refused without lookup;
`alice` reads unavailable while its record is stored and available on the
empty store left by its deletion. -/
theorem checkAvailability_spec_witness :
    checkHandler [mkCreatedRec ⟨"owner1", "o1@example.com", false⟩ "doc1"
        "alice" "10.0.0.5" "A" .ok 0] (some "-bad") =
      (.ok false (some "Subdomain cannot start or end with a hyphen"), false) ∧
    checkHandler [mkCreatedRec ⟨"owner1", "o1@example.com", false⟩ "doc1"
        "alice" "10.0.0.5" "A" .ok 0] (some "alice") =
      (.ok false (some "This subdomain is already taken"), true) ∧
    checkHandler [] (some "alice") = (.ok true none, true) := by
  refine ⟨?_, ?_, ?_⟩
  · exact (checkAvailability_spec
      [mkCreatedRec ⟨"owner1", "o1@example.com", false⟩ "doc1"
        "alice" "10.0.0.5" "A" .ok 0] "-bad" (by decide)).1
      "Subdomain cannot start or end with a hyphen" (by decide)
  · have h := (checkAvailability_spec
      [mkCreatedRec ⟨"owner1", "o1@example.com", false⟩ "doc1"
        "alice" "10.0.0.5" "A" .ok 0] "alice" (by decide)).2
      "alice" (by decide)
    simpa using h
  · have h := (checkAvailability_spec [] "alice" (by decide)).2 "alice" (by decide)
    simpa using h

/-- C9: `upsertA` is idempotent at the record level and last-write-wins: the
rrset request built by `createARecord` depends only on the label and IP, and
under the REPLACE semantics of the zone API (`applyRRset`, modelled from the
spec) applying it twice equals applying it once, and applying it with a new
IP after an old one equals applying only the new one. -/
theorem upsertA_idempotent_last_write_wins
    (z : ZoneState) (zone label ip ip1 ip2 : String) :
    applyRRset (applyRRset z (aRecordRRset zone label ip)) (aRecordRRset zone label ip) =
      applyRRset z (aRecordRRset zone label ip) ∧
    applyRRset (applyRRset z (aRecordRRset zone label ip1)) (aRecordRRset zone label ip2) =
      applyRRset z (aRecordRRset zone label ip2) := by
  constructor <;>
    simp [applyRRset, aRecordRRset, List.filter_filter]

/-- C10: after a successful create or updateTarget, the stored record has
`dnsCreated=true` iff `dnsError=null`: a successful DNS write yields
`(true, null)` and a failed one `(false, message)` — for both operations,
under the shared DNS outcome `dns`. -/
theorem dns_flags_consistent (dns : DnsOutcome)
    (db : DB) (u : User) (name target : Option String) (rtype nid : String)
    (now : Nat) (l t : String)
    (hname : validateSubdomainName name = .valid l)
    (htv : targetValidationFor rtype target = some (.valid t))
    (hfree : db.any (fun r => r.subdomainName == l) = false)
    (db2 : DB) (u2 : User) (id2 t2 : String) (now2 : Nat)
    (cur : SubdomainRecord) (v : String)
    (hfind : db2.find? (fun r => r.id == id2) = some cur)
    (hauth : u2.isAdmin = true ∨ cur.userId = u2.uid)
    (ht2 : (t2 == "") = false)
    (htv2 : targetValidationFor cur.recordType (some t2) = some (.valid v)) :
    ((handlePost db u true name target rtype dns nid now).1 =
        .created (mkCreatedRec u nid l t rtype dns now) ∧
      ((mkCreatedRec u nid l t rtype dns now).dnsCreated = true ↔
        (mkCreatedRec u nid l t rtype dns now).dnsError = none) ∧
      (dns = .ok → (mkCreatedRec u nid l t rtype dns now).dnsCreated = true) ∧
      (∀ msg, dns = .err msg →
        (mkCreatedRec u nid l t rtype dns now).dnsCreated = false ∧
        (mkCreatedRec u nid l t rtype dns now).dnsError = some msg)) ∧
    ((handlePatch db2 u2 id2 (some t2) dns now2).1 =
        .ok (patchedRec cur v dns now2) ∧
      ((patchedRec cur v dns now2).dnsCreated = true ↔
        (patchedRec cur v dns now2).dnsError = none) ∧
      (dns = .ok → (patchedRec cur v dns now2).dnsCreated = true) ∧
      (∀ msg, dns = .err msg →
        (patchedRec cur v dns now2).dnsCreated = false ∧
        (patchedRec cur v dns now2).dnsError = some msg)) := by
  have hcond : (!u2.isAdmin && cur.userId != u2.uid) = false := by
    rcases hauth with ha | ha <;> simp [ha]
  refine ⟨⟨?_, ?_, ?_, ?_⟩, ⟨?_, ?_, ?_, ?_⟩⟩
  · rw [handlePost_created_eq db u name target rtype dns nid now l t hname htv hfree]
  · cases dns <;> simp [mkCreatedRec, dnsCreatedOf, dnsErrorOf]
  · intro h
    subst h
    rfl
  · intro msg h
    subst h
    exact ⟨rfl, rfl⟩
  · simp [handlePatch, hfind, hcond, ht2, htv2]
  · cases dns <;> simp [patchedRec, dnsCreatedOf, dnsErrorOf]
  · intro h
    subst h
    rfl
  · intro msg h
    subst h
    exact ⟨rfl, rfl⟩

/-- Witness for C10: a failed DNS write during create and updateTarget
yields `(dnsCreated=false, dnsError=message)` on both stored records. -/
theorem dns_flags_consistent_witness :
    ((handlePost [] ⟨"owner1", "o1@example.com", false⟩ true (some "myhost")
        (some "10.0.0.5") "A" (.err "boom") "doc1" 0).1 =
      .created (mkCreatedRec ⟨"owner1", "o1@example.com", false⟩ "doc1"
        "myhost" "10.0.0.5" "A" (.err "boom") 0)) ∧
    ((mkCreatedRec ⟨"owner1", "o1@example.com", false⟩ "doc1"
        "myhost" "10.0.0.5" "A" (.err "boom") 0).dnsCreated = false) ∧
    ((handlePatch [mkCreatedRec ⟨"owner1", "o1@example.com", false⟩ "doc1"
          "myhost" "10.0.0.5" "A" (.err "boom") 0]
        ⟨"owner1", "o1@example.com", false⟩ "doc1" (some "10.0.0.9")
        (.err "boom") 4).1 =
      .ok (patchedRec (mkCreatedRec ⟨"owner1", "o1@example.com", false⟩ "doc1"
          "myhost" "10.0.0.5" "A" (.err "boom") 0) "10.0.0.9" (.err "boom") 4)) ∧
    ((patchedRec (mkCreatedRec ⟨"owner1", "o1@example.com", false⟩ "doc1"
          "myhost" "10.0.0.5" "A" (.err "boom") 0) "10.0.0.9"
        (.err "boom") 4).dnsError = some "boom") := by
  have h := dns_flags_consistent (.err "boom")
    [] ⟨"owner1", "o1@example.com", false⟩ (some "myhost") (some "10.0.0.5")
    "A" "doc1" 0 "myhost" "10.0.0.5" (by decide) (by decide) (by decide)
    [mkCreatedRec ⟨"owner1", "o1@example.com", false⟩ "doc1"
      "myhost" "10.0.0.5" "A" (.err "boom") 0]
    ⟨"owner1", "o1@example.com", false⟩ "doc1" "10.0.0.9" 4
    (mkCreatedRec ⟨"owner1", "o1@example.com", false⟩ "doc1"
      "myhost" "10.0.0.5" "A" (.err "boom") 0)
    "10.0.0.9" (by decide) (Or.inr (by decide)) (by decide) (by decide)
  exact ⟨h.1.1, (h.1.2.2.2 "boom" rfl).1, h.2.1, (h.2.2.2.2 "boom" rfl).2⟩

end NameSurfer
